import Mathlib

/-!
Verification development for a repository of Django REST Framework example
templates: a viewset (src/django/examples/viewset-example.py), serializer
classes (src/django/templates/serializer-example.py) and filter-set classes
(src/django/examples/filters-example.py).  The Python classes are shallowly
embedded below: records stand for model instances, lists stand for querysets
and database tables, and each Python method becomes a Lean function that is
a direct transcription of its body.
-/

namespace DjangoSkill

/-- Validated data of one nested tag, as produced by `TagSerializer`
(fields `id`, `name`, `slug` with `id` and `slug` read-only, so only
`name` survives deserialization). -/
structure TagData where
  name : String
deriving DecidableEq

/-- An `Article` model instance with the fields the three example files
touch: `title`, `content`, `summary`, `status`, the author's primary key,
the many-to-many tag set, and the two timestamp columns. -/
structure Article where
  id : Nat
  title : String
  content : String
  summary : String
  status : String
  author : Nat
  tags : List TagData
  created_at : Nat
  updated_at : Nat
deriving DecidableEq

/-- A request user: primary key plus the `is_staff` flag that
`ArticleViewSet.get_queryset` branches on. -/
structure User where
  id : Nat
  is_staff : Bool
deriving DecidableEq

/-- The representation `ArticleSerializer` produces for an article:
its declared fields minus the write-only `tag_ids` (and `content`,
which only `ArticleDetailSerializer` adds). -/
structure ArticleData where
  id : Nat
  title : String
  summary : String
  status : String
  author : Nat
  tags : List TagData
  created_at : Nat
  updated_at : Nat
deriving DecidableEq

/-- `serializer.data` for `ArticleSerializer`: projects the article onto
the serializer's readable fields. -/
def articleSerializerData (a : Article) : ArticleData :=
  ⟨a.id, a.title, a.summary, a.status, a.author, a.tags, a.created_at, a.updated_at⟩

/-- Body of an HTTP response built by the viewset: either an error dict
with a single `detail` key, one serialized article, or a list of them. -/
inductive ResponseBody where
  | detailMsg (msg : String)
  | one (a : ArticleData)
  | many (l : List ArticleData)
deriving DecidableEq

/-- A DRF `Response`: body plus HTTP status code (200 when omitted). -/
structure Response where
  body : ResponseBody
  statusCode : Nat
deriving DecidableEq

def HTTP_400_BAD_REQUEST : Nat := 400

/-- Outcome of `ArticleViewSet.publish`: the response returned, the state
of the retrieved article afterwards, and the list of `save` calls issued,
each recording the saved instance and its `update_fields` argument. -/
structure PublishOutcome where
  response : Response
  article : Article
  saves : List (Article × List String)
deriving DecidableEq

/-- `ArticleViewSet.publish` (viewset-example.py lines 54-69), acting on
the article that `self.get_object()` retrieved: if the article's status is
already `"published"` it returns a 400 response with body
`{"detail": "文章已发布"}` and touches nothing; otherwise it sets the status
to `"published"`, saves with `update_fields=["status"]`, and returns the
serialized article (a 200 response). -/
def publish (article : Article) : PublishOutcome :=
  if article.status = "published" then
    ⟨⟨.detailMsg "文章已发布", HTTP_400_BAD_REQUEST⟩, article, []⟩
  else
    let article2 := { article with status := "published" }
    ⟨⟨.one (articleSerializerData article2), 200⟩, article2, [(article2, ["status"])]⟩

/-- The queryset the framework base class (`ModelViewSet`) would return:
the class attribute `queryset`, i.e. every article in the table
(`select_related`/`prefetch_related` only affect query execution). -/
def base_get_queryset (db : List Article) : List Article := db

/-- `ArticleViewSet.get_queryset` (viewset-example.py lines 40-48):
starts from `super().get_queryset()` and, when the request user is not
staff, keeps only articles with status `"published"`. -/
def get_queryset (db : List Article) (user : User) : List Article :=
  let queryset := base_get_queryset db
  if !user.is_staff then
    queryset.filter (fun a => a.status == "published")
  else
    queryset

/-- The records `ArticleViewSet.my_articles` (viewset-example.py lines
71-82) serializes: `self.get_queryset().filter(author=request.user)`
(pagination then splits this list into pages without changing its
contents). -/
def my_articles (db : List Article) (user : User) : List Article :=
  (get_queryset db user).filter (fun a => a.author == user.id)

/-- `serializer.save(...)` for `ArticleSerializer` on create: builds the
instance from the validated data, with an optional author passed as a
keyword argument to `save` overriding the instance's author field. -/
def serializer_save (vd : Article) (authorArg : Option Nat) : Article :=
  match authorArg with
  | some uid => { vd with author := uid }
  | none => vd

/-- What the unmodified framework base class' `perform_create` does:
`serializer.save()` with no extra keyword arguments. -/
def base_perform_create (vd : Article) : Article :=
  serializer_save vd none

/-- `ArticleViewSet.perform_create` (viewset-example.py lines 50-52):
`serializer.save(author=self.request.user)`. -/
def perform_create (user : User) (vd : Article) : Article :=
  serializer_save vd (some user.id)

/-- Claim C1: for every article whose status is already `"published"`, the
publish action returns an HTTP 400 response whose body is the dict
`{"detail": "文章已发布"}`; for every article whose status is not
`"published"`, publish does not return 400 but sets the status to
`"published"` and returns the serialized article. -/
theorem publish_status_cases (a : Article) :
    (a.status = "published" →
      (publish a).response = ⟨.detailMsg "文章已发布", 400⟩) ∧
    (a.status ≠ "published" →
      (publish a).response.statusCode ≠ 400 ∧
      (publish a).article.status = "published" ∧
      (publish a).response.body = .one (articleSerializerData (publish a).article)) := by
  constructor
  · intro h
    simp [publish, h, HTTP_400_BAD_REQUEST]
  · intro h
    simp [publish, h]

/-- Witness for `publish_status_cases` at two concrete articles, one
already published and one draft. -/
theorem publish_status_cases_witness :
    ((⟨1, "t", "c", "s", "published", 2, [], 0, 0⟩ : Article).status = "published" ∧
      (publish ⟨1, "t", "c", "s", "published", 2, [], 0, 0⟩).response =
        ⟨.detailMsg "文章已发布", 400⟩) ∧
    ((⟨1, "t", "c", "s", "draft", 2, [], 0, 0⟩ : Article).status ≠ "published" ∧
      (publish ⟨1, "t", "c", "s", "draft", 2, [], 0, 0⟩).response.statusCode ≠ 400) := by
  refine ⟨⟨rfl, (publish_status_cases _).1 rfl⟩, ⟨by decide, ?_⟩⟩
  exact ((publish_status_cases ⟨1, "t", "c", "s", "draft", 2, [], 0, 0⟩).2 (by decide)).1

/-- Claim C8: the publish action touches only the status field.  On
success it issues exactly one save, with `update_fields = ["status"]`, and
every field of the article other than `status` is unchanged; on the
already-published branch no save is issued and the article is returned
exactly as it was. -/
theorem publish_frame (a : Article) :
    (a.status ≠ "published" →
      (publish a).saves = [((publish a).article, ["status"])] ∧
      (publish a).article.id = a.id ∧
      (publish a).article.title = a.title ∧
      (publish a).article.content = a.content ∧
      (publish a).article.summary = a.summary ∧
      (publish a).article.author = a.author ∧
      (publish a).article.tags = a.tags ∧
      (publish a).article.created_at = a.created_at ∧
      (publish a).article.updated_at = a.updated_at) ∧
    (a.status = "published" → (publish a).saves = [] ∧ (publish a).article = a) := by
  constructor
  · intro h
    simp [publish, h]
  · intro h
    simp [publish, h]

/-- Witness for `publish_frame` at a concrete draft article and a concrete
published article. -/
theorem publish_frame_witness :
    ((⟨7, "t", "c", "s", "draft", 3, [⟨"x"⟩], 1, 2⟩ : Article).status ≠ "published" ∧
      (publish ⟨7, "t", "c", "s", "draft", 3, [⟨"x"⟩], 1, 2⟩).saves =
        [((publish ⟨7, "t", "c", "s", "draft", 3, [⟨"x"⟩], 1, 2⟩).article, ["status"])]) ∧
    ((⟨7, "t", "c", "s", "published", 3, [], 1, 2⟩ : Article).status = "published" ∧
      (publish ⟨7, "t", "c", "s", "published", 3, [], 1, 2⟩).article =
        ⟨7, "t", "c", "s", "published", 3, [], 1, 2⟩) := by
  refine ⟨⟨by decide, ?_⟩, ⟨rfl, ?_⟩⟩
  · exact ((publish_frame ⟨7, "t", "c", "s", "draft", 3, [⟨"x"⟩], 1, 2⟩).1 (by decide)).1
  · exact ((publish_frame ⟨7, "t", "c", "s", "published", 3, [], 1, 2⟩).2 rfl).2

/-- Claim C9: for a non-staff user every article in the queryset returned
by `get_queryset` has status `"published"`, and consequently every article
`my_articles` returns for a non-staff user belongs to that user and is
published (never a draft or archived article of theirs). -/
theorem get_queryset_nonstaff_published (db : List Article) (u : User) (a : Article) :
    u.is_staff = false →
    ((a ∈ get_queryset db u → a.status = "published") ∧
     (a ∈ my_articles db u → a.author = u.id ∧ a.status = "published")) := by
  intro hu
  constructor
  · intro ha
    simp only [get_queryset, base_get_queryset, hu, Bool.not_false, if_pos] at ha
    rcases List.mem_filter.mp ha with ⟨-, hs⟩
    exact beq_iff_eq.mp hs
  · intro ha
    rcases List.mem_filter.mp ha with ⟨hq, hauth⟩
    refine ⟨beq_iff_eq.mp hauth, ?_⟩
    simp only [get_queryset, base_get_queryset, hu, Bool.not_false, if_pos] at hq
    rcases List.mem_filter.mp hq with ⟨-, hs⟩
    exact beq_iff_eq.mp hs

/-- Witness for `get_queryset_nonstaff_published`: a concrete table with a
published article and a draft by the same non-staff user; the published one
is in `my_articles` and the theorem applies to it. -/
theorem get_queryset_nonstaff_published_witness :
    (⟨9, false⟩ : User).is_staff = false ∧
    ((⟨1, "t", "c", "s", "published", 9, [], 0, 0⟩ : Article) ∈
      my_articles [⟨1, "t", "c", "s", "published", 9, [], 0, 0⟩,
        ⟨2, "u", "d", "v", "draft", 9, [], 0, 0⟩] ⟨9, false⟩ →
      (⟨1, "t", "c", "s", "published", 9, [], 0, 0⟩ : Article).author = 9 ∧
      (⟨1, "t", "c", "s", "published", 9, [], 0, 0⟩ : Article).status = "published") := by
  exact ⟨rfl,
    (get_queryset_nonstaff_published
      [⟨1, "t", "c", "s", "published", 9, [], 0, 0⟩,
        ⟨2, "u", "d", "v", "draft", 9, [], 0, 0⟩]
      ⟨9, false⟩ ⟨1, "t", "c", "s", "published", 9, [], 0, 0⟩ rfl).2⟩

/-- Claim C2 as stated is false: `get_queryset` does narrow the base
queryset (a non-staff user does not see a draft article), and
`perform_create` does assign the request user as author (the created
record differs from the framework default when the validated author
differs from the request user).  Both shown at concrete inputs. -/
theorem delegation_counterexample :
    get_queryset [⟨1, "t", "c", "s", "draft", 2, [], 0, 0⟩] ⟨9, false⟩ ≠
      base_get_queryset [⟨1, "t", "c", "s", "draft", 2, [], 0, 0⟩] ∧
    perform_create ⟨9, false⟩ ⟨1, "t", "c", "s", "draft", 2, [], 0, 0⟩ ≠
      base_perform_create ⟨1, "t", "c", "s", "draft", 2, [], 0, 0⟩ := by
  decide

/-- Claim C2, amended: the view delegates persistence, pagination and
permission checks to framework base-class methods, but it does customize
two hooks: `get_queryset` equals the base queryset for staff users and the
base queryset narrowed to status `"published"` for non-staff users, and
`perform_create` saves the record with the request user as author, leaving
every other field of the validated data unchanged. -/
theorem delegation_amended (db : List Article) (u : User) (vd : Article) :
    (u.is_staff = true → get_queryset db u = base_get_queryset db) ∧
    (u.is_staff = false →
      get_queryset db u =
        (base_get_queryset db).filter (fun a => a.status == "published")) ∧
    ((perform_create u vd).author = u.id ∧
      (perform_create u vd).id = vd.id ∧
      (perform_create u vd).title = vd.title ∧
      (perform_create u vd).content = vd.content ∧
      (perform_create u vd).summary = vd.summary ∧
      (perform_create u vd).status = vd.status ∧
      (perform_create u vd).tags = vd.tags) := by
  refine ⟨fun h => ?_, fun h => ?_, ?_⟩
  · simp [get_queryset, h]
  · simp [get_queryset, h]
  · simp [perform_create, serializer_save]

/-- Witness for `delegation_amended` at a staff user, a non-staff user and
a concrete validated article. -/
theorem delegation_amended_witness :
    (⟨4, true⟩ : User).is_staff = true ∧
    get_queryset [⟨1, "t", "c", "s", "draft", 2, [], 0, 0⟩] ⟨4, true⟩ =
      base_get_queryset [⟨1, "t", "c", "s", "draft", 2, [], 0, 0⟩] ∧
    (perform_create ⟨4, true⟩ ⟨1, "t", "c", "s", "draft", 2, [], 0, 0⟩).author = 4 := by
  refine ⟨rfl, ?_, ?_⟩
  · exact (delegation_amended [⟨1, "t", "c", "s", "draft", 2, [], 0, 0⟩] ⟨4, true⟩
      ⟨1, "t", "c", "s", "draft", 2, [], 0, 0⟩).1 rfl
  · exact (delegation_amended [⟨1, "t", "c", "s", "draft", 2, [], 0, 0⟩] ⟨4, true⟩
      ⟨1, "t", "c", "s", "draft", 2, [], 0, 0⟩).2.2.1

/-- `ArticleSerializer.validate_title` (serializer-example.py): raises a
`ValidationError` when the title has fewer than 5 characters, otherwise
returns the value unchanged.  Raising is modelled as `Except.error` with
the error message. -/
def validate_title (value : String) : Except String String :=
  if value.length < 5 then
    .error "标题至少 5 个字符"
  else
    .ok value

/-- The `attrs` dict reaching `ArticleSerializer.validate`: each writable
input field maps to `some` value when the key is present, `none` when
absent. -/
structure Attrs where
  title : Option String
  summary : Option String
  status : Option String
  tag_ids : Option (List Nat)
deriving DecidableEq

/-- Python truthiness of `attrs.get(key)` for a string field: falsy when
the key is absent or the value is the empty string. -/
def falsyStr : Option String → Bool
  | none => true
  | some s => s == ""

/-- `ArticleSerializer.validate` (serializer-example.py): raises a
`ValidationError` keyed on `"summary"` when `attrs.get("status")` equals
`"published"` and `attrs.get("summary")` is falsy, otherwise returns
`attrs` unchanged.  The error carries the (key, message) pair. -/
def validate (attrs : Attrs) : Except (String × String) Attrs :=
  if attrs.status == some "published" && falsyStr attrs.summary then
    .error ("summary", "发布文章必须提供摘要")
  else
    .ok attrs

/-- Claim C3: `validate_title` raises exactly for titles shorter than 5
characters and returns the title unchanged otherwise; `validate` raises on
the `"summary"` key exactly for inputs whose status is `"published"` with
no (i.e. missing or empty) summary, and returns `attrs` unchanged
otherwise. -/
theorem serializer_validation_cases (value : String) (attrs : Attrs) :
    (value.length < 5 → validate_title value = .error "标题至少 5 个字符") ∧
    (¬ value.length < 5 → validate_title value = .ok value) ∧
    (attrs.status = some "published" → (attrs.summary = none ∨ attrs.summary = some "") →
      validate attrs = .error ("summary", "发布文章必须提供摘要")) ∧
    (¬ (attrs.status = some "published" ∧ (attrs.summary = none ∨ attrs.summary = some "")) →
      validate attrs = .ok attrs) := by
  refine ⟨fun h => ?_, fun h => ?_, fun hs hsum => ?_, fun h => ?_⟩
  · simp [validate_title, h]
  · simp [validate_title, h]
  · rcases hsum with h2 | h2 <;> simp [validate, falsyStr, hs, h2]
  · rw [not_and_or] at h
    rcases h with h | h
    · have : (attrs.status == some "published") = false := by
        simpa [beq_iff_eq] using h
      simp [validate, this]
    · rw [not_or] at h
      have : falsyStr attrs.summary = false := by
        rcases hsum : attrs.summary with _ | s
        · exact absurd hsum h.1
        · have : ¬ s = "" := by
            intro hs0
            exact h.2 (by rw [hsum, hs0])
          simp [falsyStr, this]
      simp [validate, this]

/-- Witness for `serializer_validation_cases`: the four branches at
concrete inputs — a 2-character title, a 5-character title, published
attrs with no summary, and draft attrs. -/
theorem serializer_validation_cases_witness :
    (("ab" : String).length < 5 ∧ validate_title "ab" = .error "标题至少 5 个字符") ∧
    (¬ ("abcde" : String).length < 5 ∧ validate_title "abcde" = .ok "abcde") ∧
    ((⟨some "abcde", none, some "published", none⟩ : Attrs).status = some "published" ∧
      validate ⟨some "abcde", none, some "published", none⟩ =
        .error ("summary", "发布文章必须提供摘要")) ∧
    validate ⟨some "abcde", none, some "draft", none⟩ =
      .ok ⟨some "abcde", none, some "draft", none⟩ := by
  refine ⟨⟨by decide, (serializer_validation_cases "ab" ⟨none, none, none, none⟩).1 (by decide)⟩,
    ⟨by decide, (serializer_validation_cases "abcde" ⟨none, none, none, none⟩).2.1 (by decide)⟩,
    ⟨rfl, (serializer_validation_cases "x" ⟨some "abcde", none, some "published", none⟩).2.2.1
      rfl (Or.inl rfl)⟩,
    (serializer_validation_cases "x" ⟨some "abcde", none, some "draft", none⟩).2.2.2 (by decide)⟩

/-- The non-tag part of `ArticleCreateSerializer`'s validated data
(fields `title`, `content`, `summary`, `status`): `some` when the key is
present. -/
structure FieldData where
  title : Option String
  content : Option String
  summary : Option String
  status : Option String
deriving DecidableEq

/-- Validated data of `ArticleCreateSerializer`: the plain fields plus the
optional nested `tags` list (`none` when the `"tags"` key is absent). -/
structure CreateData where
  plain : FieldData
  tags : Option (List TagData)
deriving DecidableEq

/-- `Tag.objects.get_or_create(**tag_data)`: returns the existing tag row
matching the data, or appends a fresh one to the tag table. -/
def get_or_create (store : List TagData) (td : TagData) : TagData × List TagData :=
  if td ∈ store then (td, store) else (td, store ++ [td])

/-- `article.tags.add(tag)`: many-to-many add, a no-op when the tag is
already attached. -/
def m2m_add (tags : List TagData) (t : TagData) : List TagData :=
  if t ∈ tags then tags else tags ++ [t]

/-- `setattr(instance, attr, value)` over the items of the validated
plain-field dict: each present key overwrites the instance's field. -/
def applyFields (a : Article) (fd : FieldData) : Article :=
  { a with
    title := fd.title.getD a.title
    content := fd.content.getD a.content
    summary := fd.summary.getD a.summary
    status := fd.status.getD a.status }

/-- A freshly created `Article` row before any validated field is set
(model defaults; the models module is not part of this repository, only
the fields assigned by the serializer matter to the claims). -/
def defaultArticle : Article :=
  ⟨0, "", "", "", "draft", 0, [], 0, 0⟩

/-- The `for tag_data in tags_data` loop shared by
`ArticleCreateSerializer.create` and `.update`: `get_or_create` each tag
and attach it to the article, threading the tag table. -/
def attachTags : Article × List TagData → List TagData → Article × List TagData
  | p, [] => p
  | (a, store), td :: rest =>
      let r := get_or_create store td
      attachTags ({ a with tags := m2m_add a.tags r.1 }, r.2) rest

/-- `ArticleCreateSerializer.create` (serializer-example.py): pops the
`tags` entry (defaulting to the empty list), creates the article from the
remaining fields, then get-or-creates each tag and attaches it.  Returns
the article and the updated tag table. -/
def serializer_create (store : List TagData) (vd : CreateData) :
    Article × List TagData :=
  let tags_data := vd.tags.getD []
  let article := applyFields defaultArticle vd.plain
  attachTags (article, store) tags_data

/-- `ArticleCreateSerializer.update` (serializer-example.py): pops the
`tags` entry (defaulting to `None`), applies the remaining fields to the
instance and saves it; when a tags list was present, clears the instance's
tags and attaches the get-or-created ones. -/
def serializer_update (store : List TagData) (inst : Article) (vd : CreateData) :
    Article × List TagData :=
  let tags_data := vd.tags
  let inst2 := applyFields inst vd.plain
  match tags_data with
  | none => (inst2, store)
  | some ts => attachTags ({ inst2 with tags := [] }, store) ts

theorem attachTags_title (l : List TagData) (a : Article) (store : List TagData) :
    (attachTags (a, store) l).1.title = a.title := by
  induction l generalizing a store with
  | nil => rfl
  | cons td rest ih => simpa [attachTags] using ih _ _

theorem attachTags_content (l : List TagData) (a : Article) (store : List TagData) :
    (attachTags (a, store) l).1.content = a.content := by
  induction l generalizing a store with
  | nil => rfl
  | cons td rest ih => simpa [attachTags] using ih _ _

theorem attachTags_summary (l : List TagData) (a : Article) (store : List TagData) :
    (attachTags (a, store) l).1.summary = a.summary := by
  induction l generalizing a store with
  | nil => rfl
  | cons td rest ih => simpa [attachTags] using ih _ _

theorem attachTags_status (l : List TagData) (a : Article) (store : List TagData) :
    (attachTags (a, store) l).1.status = a.status := by
  induction l generalizing a store with
  | nil => rfl
  | cons td rest ih => simpa [attachTags] using ih _ _

theorem mem_m2m_add (t u : TagData) (tags : List TagData) :
    t ∈ m2m_add tags u ↔ t ∈ tags ∨ t = u := by
  unfold m2m_add
  by_cases h : u ∈ tags
  · simp only [if_pos h]
    constructor
    · exact Or.inl
    · rintro (ht | rfl) <;> [exact ht; exact h]
  · simp [if_neg h]

theorem mem_attachTags_tags (l : List TagData) (a : Article) (store : List TagData)
    (t : TagData) :
    t ∈ (attachTags (a, store) l).1.tags ↔ t ∈ a.tags ∨ t ∈ l := by
  induction l generalizing a store with
  | nil => simp [attachTags]
  | cons td rest ih =>
      simp only [attachTags, get_or_create]
      by_cases h : td ∈ store <;>
        simp [h, ih, mem_m2m_add, List.mem_cons, or_assoc, or_comm, or_left_comm]

theorem mem_attachTags_store (l : List TagData) (a : Article) (store : List TagData)
    (t : TagData) :
    t ∈ (attachTags (a, store) l).2 ↔ t ∈ store ∨ t ∈ l := by
  induction l generalizing a store with
  | nil => simp [attachTags]
  | cons td rest ih =>
      simp only [attachTags, get_or_create]
      by_cases h : td ∈ store
      · rw [if_pos h, ih]
        constructor
        · rintro (hs | hr)
          · exact Or.inl hs
          · exact Or.inr (List.mem_cons_of_mem _ hr)
        · rintro (hs | hc)
          · exact Or.inl hs
          · rcases List.mem_cons.mp hc with rfl | hr
            · exact Or.inl h
            · exact Or.inr hr
      · rw [if_neg h, ih]
        simp [List.mem_append, List.mem_cons, or_assoc, or_comm, or_left_comm]

/-- Claim C7: `ArticleCreateSerializer.create` pops the tags list, creates
the article from the remaining validated fields, then get-or-creates each
tag and attaches it (the attached tag set is exactly the popped list, and
every popped tag ends up in the tag table); `update` applies the remaining
fields to the instance and, when a tags list is present, replaces the
instance's tags with the get-or-created ones. -/
theorem nested_tags_create_update (store : List TagData) (vd : CreateData)
    (inst : Article) (t : TagData) (ts : List TagData) :
    ((serializer_create store vd).1.title = vd.plain.title.getD "" ∧
     (serializer_create store vd).1.content = vd.plain.content.getD "" ∧
     (serializer_create store vd).1.summary = vd.plain.summary.getD "" ∧
     (serializer_create store vd).1.status = vd.plain.status.getD "draft") ∧
    (t ∈ (serializer_create store vd).1.tags ↔ t ∈ vd.tags.getD []) ∧
    (t ∈ vd.tags.getD [] → t ∈ (serializer_create store vd).2) ∧
    ((serializer_update store inst vd).1.title = vd.plain.title.getD inst.title ∧
     (serializer_update store inst vd).1.content = vd.plain.content.getD inst.content ∧
     (serializer_update store inst vd).1.summary = vd.plain.summary.getD inst.summary ∧
     (serializer_update store inst vd).1.status = vd.plain.status.getD inst.status) ∧
    (vd.tags = some ts →
      (t ∈ (serializer_update store inst vd).1.tags ↔ t ∈ ts) ∧
      (t ∈ ts → t ∈ (serializer_update store inst vd).2)) := by
  refine ⟨?_, ?_, ?_, ?_, ?_⟩
  · refine ⟨?_, ?_, ?_, ?_⟩
    · simp only [serializer_create]
      rw [attachTags_title]
      simp [applyFields, defaultArticle]
    · simp only [serializer_create]
      rw [attachTags_content]
      simp [applyFields, defaultArticle]
    · simp only [serializer_create]
      rw [attachTags_summary]
      simp [applyFields, defaultArticle]
    · simp only [serializer_create]
      rw [attachTags_status]
      simp [applyFields, defaultArticle]
  · simp only [serializer_create]
    rw [mem_attachTags_tags]
    simp [applyFields, defaultArticle]
  · intro ht
    simp only [serializer_create]
    rw [mem_attachTags_store]
    exact Or.inr ht
  · rcases hv : vd.tags with _ | ts2
    · simp [serializer_update, hv, applyFields]
    · refine ⟨?_, ?_, ?_, ?_⟩
      · simp only [serializer_update, hv]
        rw [attachTags_title]
        simp [applyFields]
      · simp only [serializer_update, hv]
        rw [attachTags_content]
        simp [applyFields]
      · simp only [serializer_update, hv]
        rw [attachTags_summary]
        simp [applyFields]
      · simp only [serializer_update, hv]
        rw [attachTags_status]
        simp [applyFields]
  · intro hv
    constructor
    · simp only [serializer_update, hv]
      rw [mem_attachTags_tags]
      simp
    · intro ht
      simp only [serializer_update, hv]
      rw [mem_attachTags_store]
      exact Or.inr ht

/-- Witness for `nested_tags_create_update`: create with one nested tag
attaches it and records it in the tag table; update with a tags list
replaces the instance's tag set. -/
theorem nested_tags_create_update_witness :
    ((⟨"python"⟩ : TagData) ∈
      (serializer_create []
        ⟨⟨some "Hello", some "body", some "sum", some "draft"⟩,
          some [⟨"python"⟩]⟩).1.tags) ∧
    ((⟨⟨some "Hello", some "body", some "sum", some "draft"⟩,
        some [⟨"python"⟩]⟩ : CreateData).tags = some [⟨"python"⟩] ∧
      ((⟨"python"⟩ : TagData) ∈
        (serializer_update [] ⟨5, "t", "c", "s", "draft", 2, [⟨"old"⟩], 0, 0⟩
          ⟨⟨some "Hello", some "body", some "sum", some "draft"⟩,
            some [⟨"python"⟩]⟩).1.tags)) := by
  have h := nested_tags_create_update []
    ⟨⟨some "Hello", some "body", some "sum", some "draft"⟩, some [⟨"python"⟩]⟩
    ⟨5, "t", "c", "s", "draft", 2, [⟨"old"⟩], 0, 0⟩ ⟨"python"⟩ [⟨"python"⟩]
  refine ⟨h.2.1.mpr (by decide), rfl, ?_⟩
  exact (h.2.2.2.2 rfl).1.mpr (by decide)

/-- Claim C10: `ArticleCreateSerializer.update` leaves the instance's tag
set (and the tag table) unchanged whenever the validated data has no
`"tags"` key, while still applying every other validated field to the
instance. -/
theorem update_without_tags_key (store : List TagData) (inst : Article)
    (vd : CreateData) :
    vd.tags = none →
      (serializer_update store inst vd).1.tags = inst.tags ∧
      (serializer_update store inst vd).1.title = vd.plain.title.getD inst.title ∧
      (serializer_update store inst vd).1.content = vd.plain.content.getD inst.content ∧
      (serializer_update store inst vd).1.summary = vd.plain.summary.getD inst.summary ∧
      (serializer_update store inst vd).1.status = vd.plain.status.getD inst.status ∧
      (serializer_update store inst vd).2 = store := by
  intro hv
  simp [serializer_update, hv, applyFields]

/-- Witness for `update_without_tags_key` at a concrete instance and
validated data lacking the tags key. -/
theorem update_without_tags_key_witness :
    (⟨⟨some "Hello", none, none, some "published"⟩, none⟩ : CreateData).tags = none ∧
    (serializer_update [⟨"seed"⟩] ⟨5, "t", "c", "s", "draft", 2, [⟨"old"⟩], 0, 0⟩
      ⟨⟨some "Hello", none, none, some "published"⟩, none⟩).1.tags = [⟨"old"⟩] := by
  exact ⟨rfl,
    (update_without_tags_key [⟨"seed"⟩] ⟨5, "t", "c", "s", "draft", 2, [⟨"old"⟩], 0, 0⟩
      ⟨⟨some "Hello", none, none, some "published"⟩, none⟩ rfl).1⟩

/-- The lookup expression a filter declaration maps its parameter to
(filters-example.py): django-filter's `lookup_expr` strings, plus
`method` for filters dispatching to a custom predicate method and
`ordering` for `OrderingFilter` declarations. -/
inductive Lookup where
  | exact
  | iexact
  | icontains
  | gte
  | lte
  | inList
  | range
  | ordering
  | method (name : String)
deriving DecidableEq

/-- One filter declaration: query parameter name, target model field path
(`""` when none is named), lookup expression, the filter class used, and
whether `exclude=True` was passed. -/
structure FilterDecl where
  param : String
  field : String
  lookup : Lookup
  kind : String
  excl : Bool
deriving DecidableEq

/-- The filter declarations of `ArticleFilter` (filters-example.py lines
9-44), in source order.  `ChoiceFilter`/`NumberFilter` default to the
`exact` lookup; `author` targets `author_id`. -/
def ArticleFilter_filters : List FilterDecl :=
  [⟨"status", "status", .exact, "ChoiceFilter", false⟩,
   ⟨"author", "author_id", .exact, "NumberFilter", false⟩,
   ⟨"created_after", "created_at", .gte, "DateFilter", false⟩,
   ⟨"created_before", "created_at", .lte, "DateFilter", false⟩,
   ⟨"title", "title", .icontains, "CharFilter", false⟩,
   ⟨"author_name", "author__username", .icontains, "CharFilter", false⟩,
   ⟨"tag", "tags__name", .iexact, "CharFilter", false⟩]

/-- The choices of `ArticleFilter.status` (value, label). -/
def ArticleFilter_status_choices : List (String × String) :=
  [("draft", "草稿"), ("published", "已发布"), ("archived", "已归档")]

/-- The filter declarations of `TrialFilter` (filters-example.py lines
47-106), in source order.  `MultipleChoiceFilter` matches each selected
choice exactly; `DateFromToRangeFilter` uses the `range` lookup;
`has_participants` dispatches to the method `filter_has_participants`. -/
def TrialFilter_filters : List FilterDecl :=
  [⟨"status", "status", .exact, "MultipleChoiceFilter", false⟩,
   ⟨"budget_min", "budget", .gte, "NumberFilter", false⟩,
   ⟨"budget_max", "budget", .lte, "NumberFilter", false⟩,
   ⟨"is_public", "is_public", .exact, "BooleanFilter", false⟩,
   ⟨"created_date_range", "created_at", .range, "DateFromToRangeFilter", false⟩,
   ⟨"pi_name", "principal_investigator__name", .icontains, "CharFilter", false⟩,
   ⟨"has_participants", "", .method "filter_has_participants", "BooleanFilter", false⟩,
   ⟨"ordering", "", .ordering, "OrderingFilter", false⟩]

/-- The (field, exposed name) pairs of `TrialFilter.ordering`. -/
def TrialFilter_ordering_fields : List (String × String) :=
  [("created_at", "created_at"), ("updated_at", "updated_at"), ("budget", "budget")]

/-- The `Meta.fields` dict of `TrialFilter`, flattened to (field, lookup)
pairs; django-filter generates one filter per pair. -/
def TrialFilter_meta_fields : List (String × Lookup) :=
  [("status", .exact), ("status", .inList),
   ("budget", .gte), ("budget", .lte), ("budget", .exact),
   ("created_at", .gte), ("created_at", .lte)]

/-- The filter declarations of `AdvancedTrialFilter` (filters-example.py
lines 109-148), in source order.  `search` dispatches to the method
`filter_search`; `status_in` is a `BaseInFilter` (lookup `in`);
`exclude_status` is an exact-lookup filter with `exclude=True`. -/
def AdvancedTrialFilter_filters : List FilterDecl :=
  [⟨"search", "", .method "filter_search", "CharFilter", false⟩,
   ⟨"created_year", "created_at__year", .exact, "NumberFilter", false⟩,
   ⟨"created_month", "created_at__month", .exact, "NumberFilter", false⟩,
   ⟨"status_in", "status", .inList, "BaseInFilter", false⟩,
   ⟨"exclude_status", "status", .exact, "CharFilter", true⟩]

/-- Every filter declaration of the three filter-set classes. -/
def allFilterDecls : List FilterDecl :=
  ArticleFilter_filters ++ TrialFilter_filters ++ AdvancedTrialFilter_filters

/-- The set of lookups enumerated by claim C5: exact match,
case-insensitive containment on `title`, `author__username` or
`principal_investigator__name`, `gte`/`lte` on `created_at` or `budget`,
or one of the two custom predicate methods. -/
def lookupInClaimedSet (d : FilterDecl) : Bool :=
  match d.lookup with
  | .exact => true
  | .icontains =>
      ["title", "author__username", "principal_investigator__name"].contains d.field
  | .gte => ["created_at", "budget"].contains d.field
  | .lte => ["created_at", "budget"].contains d.field
  | .method n => ["filter_has_participants", "filter_search"].contains n
  | _ => false

/-- The claimed set extended by what the source actually declares as well:
case-insensitive exact match (`iexact`), membership (`in`), date interval
(`range`), and the ordering declaration. -/
def lookupInAmendedSet (d : FilterDecl) : Bool :=
  match d.lookup with
  | .iexact => true
  | .inList => true
  | .range => true
  | .ordering => true
  | _ => lookupInClaimedSet d

/-- Claim C5 as stated is false: four declarations map their parameter to
a lookup outside the claimed set — `tag` uses `iexact` on `tags__name`,
`created_date_range` uses the `range` lookup, `ordering` is an ordering
declaration, and `status_in` uses the `in` lookup. -/
theorem filter_lookup_counterexample :
    (⟨"tag", "tags__name", .iexact, "CharFilter", false⟩ : FilterDecl) ∈ allFilterDecls ∧
    lookupInClaimedSet ⟨"tag", "tags__name", .iexact, "CharFilter", false⟩ = false ∧
    (⟨"created_date_range", "created_at", .range, "DateFromToRangeFilter", false⟩ :
        FilterDecl) ∈ allFilterDecls ∧
    lookupInClaimedSet
      ⟨"created_date_range", "created_at", .range, "DateFromToRangeFilter", false⟩ = false ∧
    (⟨"ordering", "", .ordering, "OrderingFilter", false⟩ : FilterDecl) ∈ allFilterDecls ∧
    lookupInClaimedSet ⟨"ordering", "", .ordering, "OrderingFilter", false⟩ = false ∧
    (⟨"status_in", "status", .inList, "BaseInFilter", false⟩ : FilterDecl) ∈ allFilterDecls ∧
    lookupInClaimedSet ⟨"status_in", "status", .inList, "BaseInFilter", false⟩ = false := by
  decide

/-- Claim C5, amended: every filter declaration maps its query-string
parameter to a lookup drawn from exact match, case-insensitive exact match
(`iexact` on `tags__name`), case-insensitive containment, `gte`/`lte`,
membership (`in`), date interval (`range`), an ordering declaration, or a
custom predicate method; the `Meta.fields` dict of `TrialFilter` likewise
only uses exact, `in`, `gte` and `lte`. -/
theorem filter_lookup_amended :
    (∀ d ∈ allFilterDecls, lookupInAmendedSet d = true) ∧
    (∀ p ∈ TrialFilter_meta_fields,
      p.2 = Lookup.exact ∨ p.2 = Lookup.inList ∨ p.2 = Lookup.gte ∨ p.2 = Lookup.lte) := by
  decide

/-- Witness for `filter_lookup_amended` at the `tag` declaration and the
first `Meta.fields` pair. -/
theorem filter_lookup_amended_witness :
    lookupInAmendedSet ⟨"tag", "tags__name", .iexact, "CharFilter", false⟩ = true ∧
    (("status", Lookup.exact) = ("status", Lookup.exact) ∨
      ("status", Lookup.exact).2 = Lookup.inList ∨
      ("status", Lookup.exact).2 = Lookup.gte ∨
      ("status", Lookup.exact).2 = Lookup.lte) := by
  refine ⟨filter_lookup_amended.1 _ (by decide), ?_⟩
  rcases filter_lookup_amended.2 ("status", Lookup.exact) (by decide) with h | h | h | h
  · exact Or.inl (by rw [Prod.mk.injEq]; exact ⟨rfl, h⟩)
  · exact Or.inr (Or.inl h)
  · exact Or.inr (Or.inr (Or.inl h))
  · exact Or.inr (Or.inr (Or.inr h))

/-- Claim C6: the four query parameters the spec's interface contract
names are all declared — `status=` as a `ChoiceFilter` on `ArticleFilter`
and a `MultipleChoiceFilter` on `TrialFilter`, `budget_min=` as a
`NumberFilter` with lookup `gte` on `budget`, `created_after=` as a
`DateFilter` with lookup `gte` on `created_at`, and `ordering=` as an
`OrderingFilter` over `created_at`, `updated_at` and `budget`. -/
theorem spec_query_params_declared :
    (⟨"status", "status", .exact, "ChoiceFilter", false⟩ : FilterDecl) ∈
      ArticleFilter_filters ∧
    (⟨"status", "status", .exact, "MultipleChoiceFilter", false⟩ : FilterDecl) ∈
      TrialFilter_filters ∧
    (⟨"budget_min", "budget", .gte, "NumberFilter", false⟩ : FilterDecl) ∈
      TrialFilter_filters ∧
    (⟨"created_after", "created_at", .gte, "DateFilter", false⟩ : FilterDecl) ∈
      ArticleFilter_filters ∧
    (⟨"ordering", "", .ordering, "OrderingFilter", false⟩ : FilterDecl) ∈
      TrialFilter_filters ∧
    TrialFilter_ordering_fields =
      [("created_at", "created_at"), ("updated_at", "updated_at"), ("budget", "budget")] := by
  decide

/-- One `@action` declaration on the viewset: its method name, whether it
is a detail route, and the HTTP methods it accepts. -/
structure ActionDecl where
  name : String
  detail : Bool
  methods : List String
deriving DecidableEq

/-- The CRUD operations `ArticleViewSet` inherits from `ModelViewSet`, as
its own docstring lists them. -/
def modelViewSetCrudActions : List String :=
  ["list", "retrieve", "create", "update", "partial_update", "destroy"]

/-- The custom `@action` declarations of `ArticleViewSet`
(viewset-example.py lines 54 and 71), in source order. -/
def articleViewSetCustomActions : List ActionDecl :=
  [⟨"publish", true, ["post"]⟩, ⟨"my_articles", false, ["get"]⟩]

/-- The URL sub-route a DRF `@action` is mounted at: the default
`url_path` is the method name, under the object's pk for detail
actions. -/
def routeOf (a : ActionDecl) : String :=
  (if a.detail then "<pk>/" else "") ++ a.name ++ "/"

/-- Claim C4: the view class exposes exactly the six CRUD operations plus
two custom actions — the only detail-level one is `publish`, a POST,
reachable at `.../<pk>/publish/`, and the only list-level one is
`my_articles`, a GET, reachable at `.../my_articles/`. -/
theorem viewset_actions_surface :
    modelViewSetCrudActions.length = 6 ∧
    articleViewSetCustomActions.length = 2 ∧
    articleViewSetCustomActions.filter (fun a => a.detail) =
      [⟨"publish", true, ["post"]⟩] ∧
    articleViewSetCustomActions.filter (fun a => !a.detail) =
      [⟨"my_articles", false, ["get"]⟩] ∧
    articleViewSetCustomActions.map routeOf = ["<pk>/publish/", "my_articles/"] ∧
    "update" ∈ modelViewSetCrudActions ∧ "destroy" ∈ modelViewSetCrudActions ∧
    "list" ∈ modelViewSetCrudActions ∧ "retrieve" ∈ modelViewSetCrudActions ∧
    "create" ∈ modelViewSetCrudActions ∧
    "partial_update" ∈ modelViewSetCrudActions := by
  decide

end DjangoSkill
